import Mathlib

/-!
Verification development for the `oauth2lib` authorization-code grant
provider (file `oauth2/provider.py`).

The Python class `AuthorizationProvider` is embedded shallowly:

* Python dicts carrying request parameters and HTTP headers become
  association lists with override-on-insert semantics (`dinsert`).
* The host hooks (`validate_client_id`, `persist_authorization_code`, ...)
  are abstract, host-supplied operations; each is modelled as a field of
  the `Hooks` structure returning `Except PyExc _` so that a hook may
  raise an exception, and every invocation of a hook is recorded in a
  trace of `HookCall` events.  The operations therefore run in the monad
  `M a = Trace -> Except PyExc a × Trace` (exceptions plus an append-only
  call trace).
* `utils.build_url` lives outside the translated file; the operations are
  parametric in a `BuildUrl` function, exactly as the provider only ever
  passes a base URI and a parameter dict to it.
* JSON bodies are kept structured (`Json`) rather than serialized, and
  the empty string body of plain responses is `Option.none`.
* Python 2 exception classes are reduced to the two cases the provider
  distinguishes: `TypeError` and every other `StandardError`.
-/

namespace OAuth2

/-- Lookup in an association list (first match, which is the only match on
dicts built by `dinsert`). -/
def dlookup {α : Type} (k : String) : List (String × α) → Option α
  | [] => none
  | (k', v) :: rest => if k' = k then some v else dlookup k rest

/-- Dict update of a single key: override the existing binding if the key
is present, otherwise append the new binding. -/
def dinsert {α : Type} (k : String) (v : α) : List (String × α) → List (String × α)
  | [] => [(k, v)]
  | (k', v') :: rest => if k' = k then (k, v) :: rest else (k', v') :: dinsert k v rest

/-- Python `dict.update`: fold every binding of `updates` into `base`. -/
def dupdate {α : Type} (base updates : List (String × α)) : List (String × α) :=
  updates.foldl (fun acc kv => dinsert kv.1 kv.2 acc) base

/-- Remove every binding whose key occurs in `ks` (keyword-argument
binding: the named parameters are taken out of the parameter dict). -/
def dremove {α : Type} (ks : List String) (d : List (String × α)) : List (String × α) :=
  d.filter (fun kv => !(ks.contains kv.1))

/-- The two exception classes the provider distinguishes in its handlers:
`TypeError` and every other `StandardError` (Python 2). -/
inductive PyExc where
  | typeError
  | standardError
deriving DecidableEq

/-- Structured JSON values, standing for the `json.dumps` payloads. -/
inductive Json where
  | str : String → Json
  | num : Nat → Json
  | obj : List (String × Json) → Json

/-- The `requests.Response` objects the provider builds: a status code,
a header dict and a body (`none` is the empty-string body). -/
structure HttpResponse where
  status_code : Nat
  headers : List (String × String)
  body : Option Json

/-- One invocation of a host hook, with the arguments it received. -/
inductive HookCall where
  | validate_client_id (client_id : String)
  | validate_client_secret (client_id client_secret : String)
  | validate_scope (client_id scope : String)
  | validate_access
  | validate_authorization_code (client_id code : String)
  | persist_authorization_code (client_id code scope : String)
  | persist_token_information (client_id code scope access_token token_type : String)
      (expires_in : Nat) (refresh_token : String)
  | generate_authorization_code
  | generate_access_token
  | generate_refresh_token
deriving DecidableEq

/-- The append-only record of hook invocations made during one call. -/
abbrev Trace := List HookCall

/-- Computation of the provider body: it may raise a Python exception and
it appends to the hook-call trace. -/
abbrev M (α : Type) : Type := Trace → Except PyExc α × Trace

/-- Return a value, touching no hook. -/
def M.pure {α : Type} (a : α) : M α := fun t => (Except.ok a, t)

/-- Sequence two computations; an exception aborts the rest of the body
but keeps the trace accumulated so far. -/
def M.bind {α β : Type} (x : M α) (f : α → M β) : M β := fun t =>
  match x t with
  | (Except.ok a, t1) => f a t1
  | (Except.error e, t1) => (Except.error e, t1)

/-- Invoke one host hook: record the call and produce the hook's outcome. -/
def callHook {α : Type} (c : HookCall) (r : Except PyExc α) : M α :=
  fun t => (r, t ++ [c])

/-- The type of `utils.build_url`: a base URI and a parameter dict in
which a `none` value marks a parameter to strip. `build_url` itself is
outside the translated file, so the operations are parametric in it. -/
abbrev BuildUrl := String → List (String × Option String) → String

/-- `Provider._make_response`: status code, headers dict, body. -/
def make_response (body : Option Json) (headers : List (String × String))
    (status_code : Nat) : HttpResponse :=
  { status_code := status_code, headers := headers, body := body }

/-- `Provider._make_redirect_error_response`: a 302 whose `Location` is
`build_url(redirect_uri, ...)` with `error` set and the protocol-framing
parameters marked absent. -/
def make_redirect_error_response (bu : BuildUrl) (redirect_uri err : String) : HttpResponse :=
  let params : List (String × Option String) :=
    [("error", some err), ("response_type", none), ("client_id", none), ("redirect_uri", none)]
  make_response none (dinsert "Location" (bu redirect_uri params) []) 302

/-- `Provider._make_json_response`: copy the caller headers, then set the
three fixed headers (so they override the caller's), JSON body. -/
def make_json_response (data : Json) (headers : List (String × String))
    (status_code : Nat) : HttpResponse :=
  let response_headers := dupdate [] headers
  let response_headers := dinsert "Content-Type" "application/json;charset=UTF-8" response_headers
  let response_headers := dinsert "Cache-Control" "no-store" response_headers
  let response_headers := dinsert "Pragma" "no-cache" response_headers
  make_response (some data) response_headers status_code

/-- `Provider._make_json_error_response`: status 400, body `error: err`. -/
def make_json_error_response (err : String) : HttpResponse :=
  make_json_response (Json.obj [("error", Json.str err)]) [] 400

/-- `Provider._missing_redirect_uri_response`. -/
def missing_redirect_uri_response : HttpResponse :=
  make_json_error_response "invalid_request"

/-- The host hooks a concrete authorization server supplies by overriding
the abstract methods of `AuthorizationProvider`, together with the
overridable `token_type` and `token_expires_in` properties.  Each hook
may raise (`Except.error`). -/
structure Hooks where
  validate_client_id : String → Except PyExc Bool
  validate_client_secret : String → String → Except PyExc Bool
  validate_scope : String → String → Except PyExc Bool
  validate_access : Unit → Except PyExc Bool
  validate_authorization_code : String → String → Except PyExc Bool
  persist_authorization_code : String → String → String → Except PyExc Unit
  persist_token_information : String → String → String → String → String → Nat → String →
      Except PyExc Unit
  generate_authorization_code : Unit → Except PyExc String
  generate_access_token : Unit → Except PyExc String
  generate_refresh_token : Unit → Except PyExc String
  token_type : String
  token_expires_in : Nat

/-- The `params.update(...)` performed on the success path of
`get_authorization_code`: the extra caller-supplied parameters, with
`code` added and `response_type`, `client_id`, `redirect_uri` marked
absent. -/
def auth_success_params (params : List (String × String)) (code : String) :
    List (String × Option String) :=
  dinsert "redirect_uri" none
    (dinsert "client_id" none
      (dinsert "response_type" none
        (dinsert "code" (some code)
          (params.map (fun kv => (kv.1, some kv.2))))))

/-- `AuthorizationProvider.get_authorization_code`, line by line.  The
extra keyword arguments (`**params`) are the dict `params`; `scope`
defaults to the empty string. -/
def get_authorization_code (bu : BuildUrl) (h : Hooks)
    (response_type client_id redirect_uri : String)
    (params : List (String × String)) : M HttpResponse :=
  if response_type ≠ "code" then
    M.pure (make_redirect_error_response bu redirect_uri "unsupported_response_type")
  else
    M.bind (callHook (HookCall.validate_client_id client_id)
        (h.validate_client_id client_id)) (fun is_valid_client_id =>
    M.bind (callHook HookCall.validate_access (h.validate_access ())) (fun is_valid_access =>
    let scope := (dlookup "scope" params).getD ""
    M.bind (callHook (HookCall.validate_scope client_id scope)
        (h.validate_scope client_id scope)) (fun is_valid_scope =>
    if !is_valid_client_id then
      M.pure (make_redirect_error_response bu redirect_uri "unauthorized_client")
    else if !is_valid_access then
      M.pure (make_redirect_error_response bu redirect_uri "access_denied")
    else if !is_valid_scope then
      M.pure (make_redirect_error_response bu redirect_uri "invalid_scope")
    else
      M.bind (callHook HookCall.generate_authorization_code
          (h.generate_authorization_code ())) (fun code =>
      M.bind (callHook (HookCall.persist_authorization_code client_id code scope)
          (h.persist_authorization_code client_id code scope)) (fun _ =>
      M.pure (make_response none
        (dinsert "Location" (bu redirect_uri (auth_success_params params code)) []) 302))))))

/-- `AuthorizationProvider.get_token`, line by line. -/
def get_token (bu : BuildUrl) (h : Hooks)
    (grant_type client_id client_secret redirect_uri code : String)
    (params : List (String × String)) : M HttpResponse :=
  if grant_type ≠ "authorization_code" then
    M.pure (make_json_error_response "unsupported_grant_type")
  else
    M.bind (callHook (HookCall.validate_client_id client_id)
        (h.validate_client_id client_id)) (fun is_valid_client_id =>
    M.bind (callHook (HookCall.validate_client_secret client_id client_secret)
        (h.validate_client_secret client_id client_secret)) (fun is_valid_client_secret =>
    let scope := (dlookup "scope" params).getD ""
    M.bind (callHook (HookCall.validate_scope client_id scope)
        (h.validate_scope client_id scope)) (fun is_valid_scope =>
    M.bind (callHook (HookCall.validate_authorization_code client_id code)
        (h.validate_authorization_code client_id code)) (fun is_valid_grant =>
    if !(is_valid_client_id && is_valid_client_secret) then
      M.pure (make_json_error_response "invalid_client")
    else if !is_valid_grant then
      M.pure (make_json_error_response "invalid_grant")
    else if !is_valid_scope then
      M.pure (make_json_error_response "invalid_scope")
    else
      M.bind (callHook HookCall.generate_access_token (h.generate_access_token ()))
        (fun access_token =>
      let token_type := h.token_type
      let expires_in := h.token_expires_in
      M.bind (callHook HookCall.generate_refresh_token (h.generate_refresh_token ()))
        (fun refresh_token =>
      M.bind (callHook (HookCall.persist_token_information client_id code scope access_token
            token_type expires_in refresh_token)
          (h.persist_token_information client_id code scope access_token
            token_type expires_in refresh_token)) (fun _ =>
      M.pure (make_json_response (Json.obj
        [("access_token", Json.str access_token),
         ("token_type", Json.str token_type),
         ("expires_in", Json.num expires_in),
         ("refresh_token", Json.str refresh_token)]) [] 200))))))))

/-- The keyword-argument call `self.get_authorization_code(**params)`:
binding succeeds exactly when the three required parameters are present
(the rest land in `**params`); a missing one raises `TypeError` before
the body runs. -/
def call_get_authorization_code (bu : BuildUrl) (h : Hooks)
    (params : List (String × String)) : Except PyExc HttpResponse × Trace :=
  match dlookup "response_type" params, dlookup "client_id" params,
      dlookup "redirect_uri" params with
  | some response_type, some client_id, some redirect_uri =>
      get_authorization_code bu h response_type client_id redirect_uri
        (dremove ["response_type", "client_id", "redirect_uri"] params) []
  | _, _, _ => (Except.error PyExc.typeError, [])

/-- The keyword-argument call `self.get_token(**params)`: five required
parameters. -/
def call_get_token (bu : BuildUrl) (h : Hooks)
    (params : List (String × String)) : Except PyExc HttpResponse × Trace :=
  match dlookup "grant_type" params, dlookup "client_id" params,
      dlookup "client_secret" params, dlookup "redirect_uri" params,
      dlookup "code" params with
  | some grant_type, some client_id, some client_secret, some redirect_uri, some code =>
      get_token bu h grant_type client_id client_secret redirect_uri code
        (dremove ["grant_type", "client_id", "client_secret", "redirect_uri", "code"] params)
        []
  | _, _, _, _, _ => (Except.error PyExc.typeError, [])

/-- `AuthorizationProvider.get_authorization_code_from_url` on the parsed
query parameters (`utils.url_query_params` is outside the translated
file).  A `TypeError` is answered with `invalid_request` — redirecting
when the query held a `redirect_uri`; any other `StandardError` is
answered with a `server_error` redirect, where the handler itself indexes
`params` and so would re-raise (`KeyError`) were `redirect_uri` absent. -/
def get_authorization_code_from_url (bu : BuildUrl) (h : Hooks)
    (params : List (String × String)) : Except PyExc HttpResponse :=
  match (call_get_authorization_code bu h params).1 with
  | Except.ok res => Except.ok res
  | Except.error PyExc.typeError =>
      match dlookup "redirect_uri" params with
      | some u => Except.ok (make_redirect_error_response bu u "invalid_request")
      | none => Except.ok missing_redirect_uri_response
  | Except.error PyExc.standardError =>
      match dlookup "redirect_uri" params with
      | some u => Except.ok (make_redirect_error_response bu u "server_error")
      | none => Except.error PyExc.standardError

/-- `AuthorizationProvider.get_token_from_url` on the parsed query
parameters: `TypeError` becomes the `invalid_request` JSON error, any
other `StandardError` the `server_error` JSON error. -/
def get_token_from_url (bu : BuildUrl) (h : Hooks)
    (params : List (String × String)) : HttpResponse :=
  match (call_get_token bu h params).1 with
  | Except.ok res => res
  | Except.error PyExc.typeError => make_json_error_response "invalid_request"
  | Except.error PyExc.standardError => make_json_error_response "server_error"

/-- A hook call that is a pure validation check (no side effect): the
five `validate_*` hooks, as opposed to generation and persistence. -/
def HookCall.isCheck : HookCall → Bool
  | HookCall.validate_client_id _ => true
  | HookCall.validate_client_secret _ _ => true
  | HookCall.validate_scope _ _ => true
  | HookCall.validate_access => true
  | HookCall.validate_authorization_code _ _ => true
  | HookCall.persist_authorization_code _ _ _ => false
  | HookCall.persist_token_information _ _ _ _ _ _ _ => false
  | HookCall.generate_authorization_code => false
  | HookCall.generate_access_token => false
  | HookCall.generate_refresh_token => false

/-- The hooks that belong to the authorize phase: everything except
`validate_client_secret`, `validate_authorization_code` and
`persist_token_information`. -/
def HookCall.inAuthPhase : HookCall → Bool
  | HookCall.validate_client_secret _ _ => false
  | HookCall.validate_authorization_code _ _ => false
  | HookCall.persist_token_information _ _ _ _ _ _ _ => false
  | _ => true

/-- The hooks that belong to the token phase: everything except
`validate_access` and `persist_authorization_code`. -/
def HookCall.inTokenPhase : HookCall → Bool
  | HookCall.validate_access => false
  | HookCall.persist_authorization_code _ _ _ => false
  | _ => true

/-- A concrete `build_url` used to instantiate the parametric theorems
on closed inputs. -/
def buId : BuildUrl := fun base _ => base

/-- Host hooks that accept everything, with deterministic generators. -/
def hooksOk : Hooks :=
  { validate_client_id := fun _ => Except.ok true,
    validate_client_secret := fun _ _ => Except.ok true,
    validate_scope := fun _ _ => Except.ok true,
    validate_access := fun _ => Except.ok true,
    validate_authorization_code := fun _ _ => Except.ok true,
    persist_authorization_code := fun _ _ _ => Except.ok (),
    persist_token_information := fun _ _ _ _ _ _ _ => Except.ok (),
    generate_authorization_code := fun _ => Except.ok "authcode1",
    generate_access_token := fun _ => Except.ok "access1",
    generate_refresh_token := fun _ => Except.ok "refresh1",
    token_type := "Bearer",
    token_expires_in := 3600 }

/-- Host hooks that reject the client id and accept everything else. -/
def hooksDenyClient : Hooks :=
  { hooksOk with validate_client_id := fun _ => Except.ok false }

/-- Host hooks whose `validate_client_id` raises a `StandardError`. -/
def hooksRaiseStd : Hooks :=
  { hooksOk with validate_client_id := fun _ => Except.error PyExc.standardError }

/-- Host hooks whose `validate_client_id` raises a `TypeError`. -/
def hooksRaiseType : Hooks :=
  { hooksOk with validate_client_id := fun _ => Except.error PyExc.typeError }

/-- A parsed authorize query holding the three required parameters. -/
def psAuth : List (String × String) :=
  [("response_type", "code"), ("client_id", "c1"), ("redirect_uri", "https://cb")]

/-- A parsed token query holding the five required parameters. -/
def psTok : List (String × String) :=
  [("grant_type", "authorization_code"), ("client_id", "c1"), ("client_secret", "s1"),
   ("redirect_uri", "https://cb"), ("code", "ac")]

/-! Dictionary lemmas. -/

theorem dlookup_dinsert_self {α : Type} (k : String) (v : α) (d : List (String × α)) :
    dlookup k (dinsert k v d) = some v := by
  induction d with
  | nil => simp [dlookup, dinsert]
  | cons kv rest ih =>
    by_cases hk : kv.1 = k
    · simp [dlookup, dinsert, hk]
    · simp [dlookup, dinsert, hk, ih]

theorem dlookup_dinsert_of_ne {α : Type} (k k' : String) (v : α) (d : List (String × α))
    (hne : k' ≠ k) : dlookup k (dinsert k' v d) = dlookup k d := by
  induction d with
  | nil => simp [dlookup, dinsert, hne]
  | cons kv rest ih =>
    by_cases hk : kv.1 = k'
    · simp [dlookup, dinsert, hk, hne]
    · simp only [dinsert, hk, if_false, dlookup]
      by_cases hk2 : kv.1 = k
      · simp [hk2]
      · simp [hk2, ih]

/-- C8: every JSON response built by `_make_json_response` carries the
fixed `Content-Type`, `Cache-Control` and `Pragma` headers, whatever
headers the caller supplied (so the fixed values override same-named
caller headers), keeps the requested status code and the JSON payload as
body; and the JSON error response for `err` is exactly such a JSON
response, with status 400 and body the one-field object binding
`error` to `err`. -/
theorem make_json_response_spec (data : Json) (headers : List (String × String))
    (status_code : Nat) (err : String) :
    dlookup "Content-Type" (make_json_response data headers status_code).headers =
      some "application/json;charset=UTF-8"
    ∧ dlookup "Cache-Control" (make_json_response data headers status_code).headers =
      some "no-store"
    ∧ dlookup "Pragma" (make_json_response data headers status_code).headers =
      some "no-cache"
    ∧ (make_json_response data headers status_code).status_code = status_code
    ∧ (make_json_response data headers status_code).body = some data
    ∧ make_json_error_response err =
        make_json_response (Json.obj [("error", Json.str err)]) [] 400 := by
  refine ⟨?_, ?_, ?_, rfl, rfl, rfl⟩
  · simp only [make_json_response, make_response]
    rw [dlookup_dinsert_of_ne _ _ _ _ (by decide), dlookup_dinsert_of_ne _ _ _ _ (by decide),
      dlookup_dinsert_self]
  · simp only [make_json_response, make_response]
    rw [dlookup_dinsert_of_ne _ _ _ _ (by decide), dlookup_dinsert_self]
  · simp only [make_json_response, make_response]
    rw [dlookup_dinsert_self]

/-- C1: in `get_authorization_code`, a `response_type` other than
`"code"` yields the `unsupported_response_type` redirect error with no
host hook invoked; otherwise `validate_client_id`, `validate_access` and
`validate_scope` are all three evaluated (the trace starts with exactly
those three calls, whatever they return), and when at least one returns
`false` the first failing one in the order client-id, access, scope
determines the redirect error: `unauthorized_client`, `access_denied`
or `invalid_scope`. -/
theorem get_authorization_code_checks (bu : BuildUrl) (h : Hooks)
    (response_type client_id redirect_uri : String) (params : List (String × String))
    (b1 b2 b3 : Bool)
    (h1 : h.validate_client_id client_id = Except.ok b1)
    (h2 : h.validate_access () = Except.ok b2)
    (h3 : h.validate_scope client_id ((dlookup "scope" params).getD "") = Except.ok b3) :
    (response_type ≠ "code" →
      get_authorization_code bu h response_type client_id redirect_uri params [] =
        (Except.ok (make_redirect_error_response bu redirect_uri "unsupported_response_type"),
         []))
    ∧ (response_type = "code" →
        ((get_authorization_code bu h response_type client_id redirect_uri params []).2.take 3 =
          [HookCall.validate_client_id client_id, HookCall.validate_access,
           HookCall.validate_scope client_id ((dlookup "scope" params).getD "")])
        ∧ (¬(b1 = true ∧ b2 = true ∧ b3 = true) →
            (get_authorization_code bu h response_type client_id redirect_uri params []).1 =
              Except.ok (make_redirect_error_response bu redirect_uri
                (if !b1 then "unauthorized_client"
                 else if !b2 then "access_denied"
                 else "invalid_scope")))) := by
  constructor
  · intro hne
    simp [get_authorization_code, hne, M.pure]
  · intro heq
    subst heq
    constructor
    · cases b1 <;> cases b2 <;> cases b3 <;>
        simp [get_authorization_code, M.bind, M.pure, callHook, h1, h2, h3] <;>
        rcases h.generate_authorization_code () with e | code <;>
        simp <;>
        rcases h.persist_authorization_code client_id code
          ((dlookup "scope" params).getD "") with e' | u <;>
        simp
    · intro hfail
      cases b1 <;> cases b2 <;> cases b3 <;>
        simp_all [get_authorization_code, M.bind, M.pure, callHook, h1, h2, h3]

/-- C2: in `get_token`, a `grant_type` other than `"authorization_code"`
yields the `unsupported_grant_type` JSON error with no host hook
invoked; otherwise `validate_client_id`, `validate_client_secret`,
`validate_scope` and `validate_authorization_code` are all four
evaluated (the trace starts with exactly those four calls), and the
result is the `invalid_client` JSON error when the client id or secret
is invalid, else `invalid_grant` when the code is invalid, else
`invalid_scope` when the scope is invalid. -/
theorem get_token_checks (bu : BuildUrl) (h : Hooks)
    (grant_type client_id client_secret redirect_uri code : String)
    (params : List (String × String)) (b1 b2 b3 b4 : Bool)
    (h1 : h.validate_client_id client_id = Except.ok b1)
    (h2 : h.validate_client_secret client_id client_secret = Except.ok b2)
    (h3 : h.validate_scope client_id ((dlookup "scope" params).getD "") = Except.ok b3)
    (h4 : h.validate_authorization_code client_id code = Except.ok b4) :
    (grant_type ≠ "authorization_code" →
      get_token bu h grant_type client_id client_secret redirect_uri code params [] =
        (Except.ok (make_json_error_response "unsupported_grant_type"), []))
    ∧ (grant_type = "authorization_code" →
        ((get_token bu h grant_type client_id client_secret redirect_uri code params []).2.take 4 =
          [HookCall.validate_client_id client_id,
           HookCall.validate_client_secret client_id client_secret,
           HookCall.validate_scope client_id ((dlookup "scope" params).getD ""),
           HookCall.validate_authorization_code client_id code])
        ∧ (¬(b1 = true ∧ b2 = true ∧ b3 = true ∧ b4 = true) →
            (get_token bu h grant_type client_id client_secret redirect_uri code params []).1 =
              Except.ok (make_json_error_response
                (if !(b1 && b2) then "invalid_client"
                 else if !b4 then "invalid_grant"
                 else "invalid_scope")))) := by
  constructor
  · intro hne
    simp [get_token, hne, M.pure]
  · intro heq
    subst heq
    constructor
    · cases b1 <;> cases b2 <;> cases b3 <;> cases b4 <;>
        simp [get_token, M.bind, M.pure, callHook, h1, h2, h3, h4] <;>
        rcases h.generate_access_token () with e | access_token <;>
        simp <;>
        rcases h.generate_refresh_token () with e' | refresh_token <;>
        simp <;>
        rcases h.persist_token_information client_id code ((dlookup "scope" params).getD "")
          access_token h.token_type h.token_expires_in refresh_token with e2 | u <;>
        simp
    · intro hfail
      cases b1 <;> cases b2 <;> cases b3 <;> cases b4 <;>
        simp_all [get_token, M.bind, M.pure, callHook, h1, h2, h3, h4]

/-- C3: on the success path of `get_authorization_code`
(`response_type = "code"`, all three validations true) the operation
asks `generate_authorization_code` for a code, calls
`persist_authorization_code(client_id, code, scope)` exactly once (the
trace is exactly the three checks, the generation and the one persist
call), and returns a status-302 response, empty body, whose `Location`
header is `build_url redirect_uri (auth_success_params params code)` —
the extra caller-supplied parameters merged with the `code` binding and
with `response_type`, `client_id` and `redirect_uri` marked absent. -/
theorem get_authorization_code_success (bu : BuildUrl) (h : Hooks)
    (client_id redirect_uri : String) (params : List (String × String)) (code : String)
    (h1 : h.validate_client_id client_id = Except.ok true)
    (h2 : h.validate_access () = Except.ok true)
    (h3 : h.validate_scope client_id ((dlookup "scope" params).getD "") = Except.ok true)
    (hg : h.generate_authorization_code () = Except.ok code)
    (hp : h.persist_authorization_code client_id code ((dlookup "scope" params).getD "") =
      Except.ok ()) :
    get_authorization_code bu h "code" client_id redirect_uri params [] =
      (Except.ok
        { status_code := 302,
          headers := [("Location", bu redirect_uri (auth_success_params params code))],
          body := none },
       [HookCall.validate_client_id client_id, HookCall.validate_access,
        HookCall.validate_scope client_id ((dlookup "scope" params).getD ""),
        HookCall.generate_authorization_code,
        HookCall.persist_authorization_code client_id code
          ((dlookup "scope" params).getD "")]) := by
  simp [get_authorization_code, M.bind, M.pure, callHook, h1, h2, h3, hg, hp,
    make_response, dinsert]

/-- C4: on the success path of `get_token`
(`grant_type = "authorization_code"`, all four validations true) the
operation generates an access token and a refresh token, calls
`persist_token_information` exactly once with the client id, code,
scope, access token, token type, expiry and refresh token (the trace is
exactly the four checks, the two generations and the one persist call),
and returns the JSON response of status 200 whose body is the object
with exactly the fields `access_token`, `token_type`, `expires_in`,
`refresh_token` holding those values. -/
theorem get_token_success (bu : BuildUrl) (h : Hooks)
    (client_id client_secret redirect_uri code : String)
    (params : List (String × String)) (access_token refresh_token : String)
    (h1 : h.validate_client_id client_id = Except.ok true)
    (h2 : h.validate_client_secret client_id client_secret = Except.ok true)
    (h3 : h.validate_scope client_id ((dlookup "scope" params).getD "") = Except.ok true)
    (h4 : h.validate_authorization_code client_id code = Except.ok true)
    (hga : h.generate_access_token () = Except.ok access_token)
    (hgr : h.generate_refresh_token () = Except.ok refresh_token)
    (hp : h.persist_token_information client_id code ((dlookup "scope" params).getD "")
        access_token h.token_type h.token_expires_in refresh_token = Except.ok ()) :
    get_token bu h "authorization_code" client_id client_secret redirect_uri code params [] =
      (Except.ok (make_json_response (Json.obj
          [("access_token", Json.str access_token),
           ("token_type", Json.str h.token_type),
           ("expires_in", Json.num h.token_expires_in),
           ("refresh_token", Json.str refresh_token)]) [] 200),
       [HookCall.validate_client_id client_id,
        HookCall.validate_client_secret client_id client_secret,
        HookCall.validate_scope client_id ((dlookup "scope" params).getD ""),
        HookCall.validate_authorization_code client_id code,
        HookCall.generate_access_token,
        HookCall.generate_refresh_token,
        HookCall.persist_token_information client_id code ((dlookup "scope" params).getD "")
          access_token h.token_type h.token_expires_in refresh_token]) := by
  simp [get_token, M.bind, M.pure, callHook, h1, h2, h3, h4, hga, hgr, hp]

/-- C5: whenever `get_authorization_code` or `get_token` takes an error
path — the response-type/grant-type gate fails or at least one
validation hook answers `false` — every hook call in the trace is a pure
validation check: neither persistence hook and no generator function is
ever invoked on an error path. -/
theorem no_side_effects_on_error (bu : BuildUrl) (h : Hooks)
    (response_type client_id redirect_uri : String) (params : List (String × String))
    (grant_type client_id2 client_secret redirect_uri2 code : String)
    (params2 : List (String × String)) (b1 b2 b3 g1 g2 g3 g4 : Bool)
    (h1 : h.validate_client_id client_id = Except.ok b1)
    (h2 : h.validate_access () = Except.ok b2)
    (h3 : h.validate_scope client_id ((dlookup "scope" params).getD "") = Except.ok b3)
    (k1 : h.validate_client_id client_id2 = Except.ok g1)
    (k2 : h.validate_client_secret client_id2 client_secret = Except.ok g2)
    (k3 : h.validate_scope client_id2 ((dlookup "scope" params2).getD "") = Except.ok g3)
    (k4 : h.validate_authorization_code client_id2 code = Except.ok g4) :
    ((response_type ≠ "code" ∨ ¬(b1 = true ∧ b2 = true ∧ b3 = true)) →
      ((get_authorization_code bu h response_type client_id redirect_uri params []).2.all
        HookCall.isCheck) = true)
    ∧ ((grant_type ≠ "authorization_code" ∨
          ¬(g1 = true ∧ g2 = true ∧ g3 = true ∧ g4 = true)) →
      ((get_token bu h grant_type client_id2 client_secret redirect_uri2 code params2 []).2.all
        HookCall.isCheck) = true) := by
  constructor
  · intro hcond
    by_cases hrt : response_type = "code"
    · subst hrt
      have hfail : ¬(b1 = true ∧ b2 = true ∧ b3 = true) := by
        rcases hcond with hne | hf
        · exact absurd rfl hne
        · exact hf
      cases b1 <;> cases b2 <;> cases b3 <;>
        simp_all [get_authorization_code, M.bind, M.pure, callHook, HookCall.isCheck]
    · simp [get_authorization_code, hrt, M.pure]
  · intro hcond
    by_cases hgt : grant_type = "authorization_code"
    · subst hgt
      have hfail : ¬(g1 = true ∧ g2 = true ∧ g3 = true ∧ g4 = true) := by
        rcases hcond with hne | hf
        · exact absurd rfl hne
        · exact hf
      cases g1 <;> cases g2 <;> cases g3 <;> cases g4 <;>
        simp_all [get_token, M.bind, M.pure, callHook, HookCall.isCheck]
    · simp [get_token, hgt, M.pure]

/-- C10: each phase only ever invokes its own hook set, whatever the
hooks return or raise: `get_authorization_code` never calls
`validate_client_secret`, `validate_authorization_code` or
`persist_token_information`, and `get_token` never calls
`validate_access` or `persist_authorization_code`. -/
theorem phase_hook_separation (bu : BuildUrl) (h : Hooks)
    (response_type client_id redirect_uri : String) (params : List (String × String))
    (grant_type client_id2 client_secret redirect_uri2 code : String)
    (params2 : List (String × String)) :
    ((get_authorization_code bu h response_type client_id redirect_uri params []).2.all
      HookCall.inAuthPhase) = true
    ∧ ((get_token bu h grant_type client_id2 client_secret redirect_uri2 code params2 []).2.all
      HookCall.inTokenPhase) = true := by
  constructor
  · by_cases hrt : response_type = "code"
    · subst hrt
      rcases hv1 : h.validate_client_id client_id with e1 | b1
      · simp [get_authorization_code, M.bind, M.pure, callHook, hv1, HookCall.inAuthPhase]
      · rcases hv2 : h.validate_access () with e2 | b2
        · simp [get_authorization_code, M.bind, M.pure, callHook, hv1, hv2,
            HookCall.inAuthPhase]
        · rcases hv3 : h.validate_scope client_id ((dlookup "scope" params).getD "")
            with e3 | b3
          · simp [get_authorization_code, M.bind, M.pure, callHook, hv1, hv2, hv3,
              HookCall.inAuthPhase]
          · rcases hg : h.generate_authorization_code () with e4 | code0
            · cases b1 <;> cases b2 <;> cases b3 <;>
                simp [get_authorization_code, M.bind, M.pure, callHook, hv1, hv2, hv3, hg,
                  HookCall.inAuthPhase]
            · rcases hp : h.persist_authorization_code client_id code0
                  ((dlookup "scope" params).getD "") with e5 | u
              · cases b1 <;> cases b2 <;> cases b3 <;>
                  simp [get_authorization_code, M.bind, M.pure, callHook, hv1, hv2, hv3,
                    hg, hp, HookCall.inAuthPhase]
              · cases b1 <;> cases b2 <;> cases b3 <;>
                  simp [get_authorization_code, M.bind, M.pure, callHook, hv1, hv2, hv3,
                    hg, hp, HookCall.inAuthPhase]
    · simp [get_authorization_code, hrt, M.pure]
  · by_cases hgt : grant_type = "authorization_code"
    · subst hgt
      rcases hv1 : h.validate_client_id client_id2 with e1 | b1
      · simp [get_token, M.bind, M.pure, callHook, hv1, HookCall.inTokenPhase]
      · rcases hv2 : h.validate_client_secret client_id2 client_secret with e2 | b2
        · simp [get_token, M.bind, M.pure, callHook, hv1, hv2, HookCall.inTokenPhase]
        · rcases hv3 : h.validate_scope client_id2 ((dlookup "scope" params2).getD "")
              with e3 | b3
          · simp [get_token, M.bind, M.pure, callHook, hv1, hv2, hv3, HookCall.inTokenPhase]
          · rcases hv4 : h.validate_authorization_code client_id2 code with e4 | b4
            · simp [get_token, M.bind, M.pure, callHook, hv1, hv2, hv3, hv4,
                HookCall.inTokenPhase]
            · rcases hga : h.generate_access_token () with e5 | access_token
              · cases b1 <;> cases b2 <;> cases b3 <;> cases b4 <;>
                  simp [get_token, M.bind, M.pure, callHook, hv1, hv2, hv3, hv4, hga,
                    HookCall.inTokenPhase]
              · rcases hgr : h.generate_refresh_token () with e6 | refresh_token
                · cases b1 <;> cases b2 <;> cases b3 <;> cases b4 <;>
                    simp [get_token, M.bind, M.pure, callHook, hv1, hv2, hv3, hv4, hga, hgr,
                      HookCall.inTokenPhase]
                · rcases hp : h.persist_token_information client_id2 code
                      ((dlookup "scope" params2).getD "") access_token h.token_type
                      h.token_expires_in refresh_token with e7 | u
                  · cases b1 <;> cases b2 <;> cases b3 <;> cases b4 <;>
                      simp [get_token, M.bind, M.pure, callHook, hv1, hv2, hv3, hv4, hga,
                        hgr, hp, HookCall.inTokenPhase]
                  · cases b1 <;> cases b2 <;> cases b3 <;> cases b4 <;>
                      simp [get_token, M.bind, M.pure, callHook, hv1, hv2, hv3, hv4, hga,
                        hgr, hp, HookCall.inTokenPhase]
    · simp [get_token, hgt, M.pure]

/-- C6: when the parsed query has all required parameters and the body
of the operation raises an unexpected (`StandardError`) hook fault,
`get_authorization_code_from_url` answers the `server_error` redirect
to the parsed `redirect_uri` and `get_token_from_url` answers the
`server_error` JSON error; the direct operations instead propagate a
hook fault (here: one raised by `validate_client_id`) unchanged to
their caller. -/
theorem from_url_fault_boundary (bu : BuildUrl) (h : Hooks)
    (ps ps2 ps3 : List (String × String))
    (rt cid ru gt cid2 cs2 ru2 code2 cid3 ru3 cs3 code3 : String) (e : PyExc)
    (a1 : dlookup "response_type" ps = some rt)
    (a2 : dlookup "client_id" ps = some cid)
    (a3 : dlookup "redirect_uri" ps = some ru)
    (afail : (get_authorization_code bu h rt cid ru
        (dremove ["response_type", "client_id", "redirect_uri"] ps) []).1 =
      Except.error PyExc.standardError)
    (t1 : dlookup "grant_type" ps2 = some gt)
    (t2 : dlookup "client_id" ps2 = some cid2)
    (t3 : dlookup "client_secret" ps2 = some cs2)
    (t4 : dlookup "redirect_uri" ps2 = some ru2)
    (t5 : dlookup "code" ps2 = some code2)
    (tfail : (get_token bu h gt cid2 cs2 ru2 code2
        (dremove ["grant_type", "client_id", "client_secret", "redirect_uri", "code"] ps2)
        []).1 = Except.error PyExc.standardError)
    (p1 : h.validate_client_id cid3 = Except.error e) :
    get_authorization_code_from_url bu h ps =
      Except.ok (make_redirect_error_response bu ru "server_error")
    ∧ get_token_from_url bu h ps2 = make_json_error_response "server_error"
    ∧ (get_authorization_code bu h "code" cid3 ru3 ps3 []).1 = Except.error e
    ∧ (get_token bu h "authorization_code" cid3 cs3 ru3 code3 ps3 []).1 = Except.error e := by
  refine ⟨?_, ?_, ?_, ?_⟩
  · simp [get_authorization_code_from_url, call_get_authorization_code, a1, a2, a3, afail]
  · simp [get_token_from_url, call_get_token, t1, t2, t3, t4, t5, tfail]
  · simp [get_authorization_code, M.bind, M.pure, callHook, p1]
  · simp [get_token, M.bind, M.pure, callHook, p1]

/-- C7: when the parsed query lacks a required parameter of the
underlying operation, `get_authorization_code_from_url` answers
`invalid_request` — as a redirect error to the parsed `redirect_uri`
when the query held one, otherwise as the missing-redirect-uri JSON
response — and `get_token_from_url` answers the `invalid_request` JSON
error. -/
theorem from_url_missing_params (bu : BuildUrl) (h : Hooks)
    (ps ps2 : List (String × String)) (u : String)
    (hmiss : dlookup "response_type" ps = none ∨ dlookup "client_id" ps = none ∨
      dlookup "redirect_uri" ps = none)
    (hmiss2 : dlookup "grant_type" ps2 = none ∨ dlookup "client_id" ps2 = none ∨
      dlookup "client_secret" ps2 = none ∨ dlookup "redirect_uri" ps2 = none ∨
      dlookup "code" ps2 = none) :
    (dlookup "redirect_uri" ps = some u →
      get_authorization_code_from_url bu h ps =
        Except.ok (make_redirect_error_response bu u "invalid_request"))
    ∧ (dlookup "redirect_uri" ps = none →
      get_authorization_code_from_url bu h ps = Except.ok missing_redirect_uri_response)
    ∧ get_token_from_url bu h ps2 = make_json_error_response "invalid_request" := by
  have hcall : call_get_authorization_code bu h ps = (Except.error PyExc.typeError, []) := by
    unfold call_get_authorization_code
    rcases hmiss with hm | hm | hm
    · simp [hm]
    · cases h1 : dlookup "response_type" ps <;> simp [h1, hm]
    · cases h1 : dlookup "response_type" ps <;> cases h2 : dlookup "client_id" ps <;>
        simp [h1, h2, hm]
  have hcall2 : call_get_token bu h ps2 = (Except.error PyExc.typeError, []) := by
    unfold call_get_token
    rcases hmiss2 with hm | hm | hm | hm | hm
    · simp [hm]
    · cases h1 : dlookup "grant_type" ps2 <;> simp [h1, hm]
    · cases h1 : dlookup "grant_type" ps2 <;> cases h2 : dlookup "client_id" ps2 <;>
        simp [h1, h2, hm]
    · cases h1 : dlookup "grant_type" ps2 <;> cases h2 : dlookup "client_id" ps2 <;>
        cases h3 : dlookup "client_secret" ps2 <;> simp [h1, h2, h3, hm]
    · cases h1 : dlookup "grant_type" ps2 <;> cases h2 : dlookup "client_id" ps2 <;>
        cases h3 : dlookup "client_secret" ps2 <;> cases h4 : dlookup "redirect_uri" ps2 <;>
        simp [h1, h2, h3, h4, hm]
  refine ⟨?_, ?_, ?_⟩
  · intro hru
    simp [get_authorization_code_from_url, hcall, hru]
  · intro hru
    simp [get_authorization_code_from_url, hcall, hru]
  · simp [get_token_from_url, hcall2]

/-- C9: a `TypeError` raised by a host hook inside the operation body —
not by the parameter binding, which here succeeds — is caught by the
same handler that classifies missing parameters, so both entry points
answer `invalid_request` (redirect-shaped for the authorize one, since
a `redirect_uri` was bound) rather than `server_error`. -/
theorem from_url_hook_type_error (bu : BuildUrl) (h : Hooks)
    (ps ps2 : List (String × String))
    (rt cid ru gt cid2 cs2 ru2 code2 : String)
    (a1 : dlookup "response_type" ps = some rt)
    (a2 : dlookup "client_id" ps = some cid)
    (a3 : dlookup "redirect_uri" ps = some ru)
    (afail : (get_authorization_code bu h rt cid ru
        (dremove ["response_type", "client_id", "redirect_uri"] ps) []).1 =
      Except.error PyExc.typeError)
    (t1 : dlookup "grant_type" ps2 = some gt)
    (t2 : dlookup "client_id" ps2 = some cid2)
    (t3 : dlookup "client_secret" ps2 = some cs2)
    (t4 : dlookup "redirect_uri" ps2 = some ru2)
    (t5 : dlookup "code" ps2 = some code2)
    (tfail : (get_token bu h gt cid2 cs2 ru2 code2
        (dremove ["grant_type", "client_id", "client_secret", "redirect_uri", "code"] ps2)
        []).1 = Except.error PyExc.typeError) :
    get_authorization_code_from_url bu h ps =
      Except.ok (make_redirect_error_response bu ru "invalid_request")
    ∧ get_token_from_url bu h ps2 = make_json_error_response "invalid_request" := by
  constructor
  · simp [get_authorization_code_from_url, call_get_authorization_code, a1, a2, a3, afail]
  · simp [get_token_from_url, call_get_token, t1, t2, t3, t4, t5, tfail]

/-- Witness for C1: with a client-id-rejecting host, the authorize phase
answers the `unauthorized_client` redirect error. -/
theorem get_authorization_code_checks_witness :
    (get_authorization_code buId hooksDenyClient "code" "c1" "https://cb" [] []).1 =
      Except.ok (make_redirect_error_response buId "https://cb" "unauthorized_client") := by
  have hmain := get_authorization_code_checks buId hooksDenyClient "code" "c1" "https://cb"
    [] false true true rfl rfl rfl
  simpa using (hmain.2 rfl).2 (by simp)

/-- Witness for C2: with a client-id-rejecting host, the token phase
answers the `invalid_client` JSON error. -/
theorem get_token_checks_witness :
    (get_token buId hooksDenyClient "authorization_code" "c1" "s1" "https://cb" "ac" []
      []).1 = Except.ok (make_json_error_response "invalid_client") := by
  have hmain := get_token_checks buId hooksDenyClient "authorization_code" "c1" "s1"
    "https://cb" "ac" [] false true true true rfl rfl rfl rfl
  simpa using (hmain.2 rfl).2 (by simp)

/-- Witness for C3: a fully successful authorize call, evaluated on
concrete inputs. -/
theorem get_authorization_code_success_witness :
    get_authorization_code buId hooksOk "code" "c1" "https://cb" [("state", "xyz")] [] =
      (Except.ok
        { status_code := 302,
          headers := [("Location", buId "https://cb"
            (auth_success_params [("state", "xyz")] "authcode1"))],
          body := none },
       [HookCall.validate_client_id "c1", HookCall.validate_access,
        HookCall.validate_scope "c1" ((dlookup "scope" [("state", "xyz")]).getD ""),
        HookCall.generate_authorization_code,
        HookCall.persist_authorization_code "c1" "authcode1"
          ((dlookup "scope" [("state", "xyz")]).getD "")]) :=
  get_authorization_code_success buId hooksOk "c1" "https://cb" [("state", "xyz")]
    "authcode1" rfl rfl rfl rfl rfl

/-- Witness for C4: a fully successful token call, evaluated on concrete
inputs. -/
theorem get_token_success_witness :
    get_token buId hooksOk "authorization_code" "c1" "s1" "https://cb" "ac" [] [] =
      (Except.ok (make_json_response (Json.obj
          [("access_token", Json.str "access1"),
           ("token_type", Json.str hooksOk.token_type),
           ("expires_in", Json.num hooksOk.token_expires_in),
           ("refresh_token", Json.str "refresh1")]) [] 200),
       [HookCall.validate_client_id "c1",
        HookCall.validate_client_secret "c1" "s1",
        HookCall.validate_scope "c1" ((dlookup "scope" ([] : List (String × String))).getD ""),
        HookCall.validate_authorization_code "c1" "ac",
        HookCall.generate_access_token,
        HookCall.generate_refresh_token,
        HookCall.persist_token_information "c1" "ac"
          ((dlookup "scope" ([] : List (String × String))).getD "") "access1"
          hooksOk.token_type hooksOk.token_expires_in "refresh1"]) :=
  get_token_success buId hooksOk "c1" "s1" "https://cb" "ac" [] "access1" "refresh1"
    rfl rfl rfl rfl rfl rfl rfl

/-- Witness for C5: on rejected calls, both traces hold only validation
checks. -/
theorem no_side_effects_on_error_witness :
    ((get_authorization_code buId hooksDenyClient "code" "c1" "https://cb" [] []).2.all
      HookCall.isCheck) = true
    ∧ ((get_token buId hooksDenyClient "authorization_code" "c1" "s1" "https://cb" "ac" []
        []).2.all HookCall.isCheck) = true := by
  have hmain := no_side_effects_on_error buId hooksDenyClient "code" "c1" "https://cb" []
    "authorization_code" "c1" "s1" "https://cb" "ac" [] false true true false true true true
    rfl rfl rfl rfl rfl rfl rfl
  exact ⟨hmain.1 (Or.inr (by simp)), hmain.2 (Or.inr (by simp))⟩

/-- Witness for C6: with a `StandardError`-raising `validate_client_id`,
both entry points answer `server_error` while the direct operations
propagate the exception. -/
theorem from_url_fault_boundary_witness :
    get_authorization_code_from_url buId hooksRaiseStd psAuth =
      Except.ok (make_redirect_error_response buId "https://cb" "server_error")
    ∧ get_token_from_url buId hooksRaiseStd psTok = make_json_error_response "server_error"
    ∧ (get_authorization_code buId hooksRaiseStd "code" "c3" "https://cb3" [] []).1 =
        Except.error PyExc.standardError
    ∧ (get_token buId hooksRaiseStd "authorization_code" "c3" "s3" "https://cb3" "ac3" []
        []).1 = Except.error PyExc.standardError :=
  from_url_fault_boundary buId hooksRaiseStd psAuth psTok [] "code" "c1" "https://cb"
    "authorization_code" "c1" "s1" "https://cb" "ac" "c3" "https://cb3" "s3" "ac3"
    PyExc.standardError rfl rfl rfl rfl rfl rfl rfl rfl rfl rfl rfl

/-- Witness for C7: a query lacking `response_type` but holding a
`redirect_uri`, and an empty token query. -/
theorem from_url_missing_params_witness :
    (dlookup "redirect_uri" [("redirect_uri", "https://cb")] = some "https://cb" →
      get_authorization_code_from_url buId hooksOk [("redirect_uri", "https://cb")] =
        Except.ok (make_redirect_error_response buId "https://cb" "invalid_request"))
    ∧ (dlookup "redirect_uri" [("redirect_uri", "https://cb")] = none →
      get_authorization_code_from_url buId hooksOk [("redirect_uri", "https://cb")] =
        Except.ok missing_redirect_uri_response)
    ∧ get_token_from_url buId hooksOk [] = make_json_error_response "invalid_request" :=
  from_url_missing_params buId hooksOk [("redirect_uri", "https://cb")] [] "https://cb"
    (Or.inl rfl) (Or.inl rfl)

/-- Witness for C9: with a `TypeError`-raising `validate_client_id`,
both entry points answer `invalid_request`. -/
theorem from_url_hook_type_error_witness :
    get_authorization_code_from_url buId hooksRaiseType psAuth =
      Except.ok (make_redirect_error_response buId "https://cb" "invalid_request")
    ∧ get_token_from_url buId hooksRaiseType psTok =
      make_json_error_response "invalid_request" :=
  from_url_hook_type_error buId hooksRaiseType psAuth psTok "code" "c1" "https://cb"
    "authorization_code" "c1" "s1" "https://cb" "ac" rfl rfl rfl rfl rfl rfl rfl rfl rfl rfl

end OAuth2
